import Mathlib

/-!
Verification of the md2conf excerpt: front-matter extraction, Mermaid
diagram scale selection and rendering (src/md2conf/mermaid.py), and the
external reference resolver (src/md2conf/reference.py).

Shallow embedding notes:
* Strings stand for Python `str`; byte payloads are `List UInt8`.
* The PyYAML library, the document `Scanner` and the file system are
  external collaborators; they are modelled as explicit parameters
  (`YamlLoader`, `FileSystem`), with `Except` errors standing for raised
  Python exceptions.
-/

namespace Md2conf

/-! ### Front-matter block extraction

`extract_value` in mermaid.py is only ever instantiated with the fixed
pattern `(?ms)\A---$(.+?)^---$` (via `extract_frontmatter_block`), with
`re.sub(count=1)` removing the first match. We embed that instantiation
directly as a string function, following Python `re` semantics:
`\A---$` requires the text to start with `---` followed by a newline (or
the end of input); `(.+?)` is non-greedy and dot-matches-all, so the
closing delimiter is the earliest line reading exactly `---`; `$` is a
zero-width assertion, so the newline after the closing `---` is not part
of the match. -/

/-- Whether position `e` in `cs` can end the non-greedy group: `^---$`
matches at `e`, i.e. a newline precedes `e`, `---` occupies `e..e+2`,
and `e+3` is the end of input or a newline; `4 ≤ e` keeps the group
(which starts at index 3) non-empty. -/
def fmCloseAt (cs : List Char) (e : Nat) : Bool :=
  decide (4 ≤ e) && (cs[e-1]? == some '\n')
    && (cs[e]? == some '-') && (cs[e+1]? == some '-') && (cs[e+2]? == some '-')
    && ((e + 3 == cs.length) || (cs[e+3]? == some '\n'))

/-- Position of the earliest admissible closing delimiter (non-greedy
`(.+?)` tries the shortest group first). -/
def fmFindClose (cs : List Char) : Option Nat :=
  (List.range (cs.length + 1)).find? (fun e => fmCloseAt cs e)

/-- Embedding of `extract_frontmatter_block` (which is `extract_value`
specialised to the pattern `(?ms)\A---$(.+?)^---$`): on a match, the raw
group (everything strictly between the two `---` delimiter lines) and
the text with the matched span deleted; otherwise `none` and the text
unchanged. -/
def extract_frontmatter_block (text : String) : Option String × String :=
  let cs := text.data
  if cs.take 3 = ['-', '-', '-'] ∧ (cs.length = 3 ∨ cs[3]? = some '\n') then
    match fmFindClose cs with
    | some e => (some (String.mk ((cs.drop 3).take (e - 3))), String.mk (cs.drop (e + 3)))
    | none => (none, text)
  else (none, text)

/-! ### YAML values and front-matter properties

PyYAML's `safe_load` is an external collaborator: a `YamlLoader` is its
behaviour, mapping a raw block to a parsed value or to a raised
exception (`Except.error`). `Yaml` models the Python values `safe_load`
can produce; `Yaml.map` stands for a Python `dict` with string keys. -/

/-- Model of a Python value produced by `yaml.safe_load`. -/
inductive Yaml where
  | null : Yaml
  | bool : Bool → Yaml
  | num : Int → Yaml
  | str : String → Yaml
  | list : List Yaml → Yaml
  | map : List (String × Yaml) → Yaml
deriving Repr

/-- Behaviour of `yaml.safe_load`: result value or raised exception. -/
abbrev YamlLoader : Type := String → Except String Yaml

/-- Python truthiness of a `Yaml` value (`None`, `0`, `""`, `[]` and
empty dicts are falsy). -/
def Yaml.truthy : Yaml → Bool
  | .null => false
  | .bool b => b
  | .num n => decide (n ≠ 0)
  | .str s => decide (s ≠ "")
  | .list xs => !xs.isEmpty
  | .map kvs => !kvs.isEmpty

/-- Whether a `Yaml` value is a Python `dict` (`isinstance(data, dict)`). -/
def Yaml.isMap : Yaml → Bool
  | .map _ => true
  | _ => false

/-- Embedding of `extract_frontmatter_properties`. The source calls
`yaml.safe_load(block)` with no surrounding `try`/`except`, so a loader
exception propagates to the caller (`Except.error`); a successfully
parsed non-`dict` value leaves `properties` as `None`. -/
def extract_frontmatter_properties (load : YamlLoader) (text : String) :
    Except String (Option (List (String × Yaml)) × String) :=
  match extract_frontmatter_block text with
  | (none, text') => .ok (none, text')
  | (some block, text') =>
    match load block with
    | .error e => .error e
    | .ok data =>
      match data with
      | .map kvs => .ok (some kvs, text')
      | _ => .ok (none, text')

/-- Result of `MermaidScanner.read`: the Python dict with exactly the
keys `"title"` and `"config"`; each value is `dict.get` of the parsed
properties (absent key modelled as `none`). -/
structure MermaidProperties where
  title : Option Yaml
  config : Option Yaml
deriving Repr

/-- Embedding of `MermaidScanner.read`: extract properties (a loader
exception propagates), then project `title` and `config`. -/
def MermaidScanner.read (load : YamlLoader) (content : String) :
    Except String MermaidProperties :=
  match extract_frontmatter_properties load content with
  | .error e => .error e
  | .ok (some kvs, _) => .ok ⟨kvs.lookup "title", kvs.lookup "config"⟩
  | .ok (none, _) => .ok ⟨none, none⟩

/-- Embedding of `_extract_mermaid_scale`: the whole body runs under
`try`/`except Exception`, which absorbs loader exceptions and the
`AttributeError` raised by `config.get` when `config` is a truthy
non-dict, returning `None`. `properties` is always a two-entry dict,
hence truthy; `config.get("scale", None)` is read only when `config` is
truthy. -/
def extract_mermaid_scale (load : YamlLoader) (content : String) : Option Yaml :=
  match MermaidScanner.read load content with
  | .error _ => none
  | .ok props =>
    match props.config with
    | none => none
    | some c =>
      if c.truthy then
        match c with
        | .map kvs => kvs.lookup "scale"
        | _ => none
      else none

/-! ### Mermaid rendering

`render` spawns the external `mmdc` converter on a fresh temporary
output file and cleans the file up in a `finally` block. The subprocess
and the temporary file are external effects, modelled by `RenderEnv`:
`popen` is the outcome of `subprocess.Popen` + `communicate` (an
`Except.error` stands for a raised exception such as the executable
being missing), `fileContents` the outcome of reading the temporary
output file, and `fileLingers` whether the temporary file still exists
when the `finally` block runs. Captured process output is modelled as
already UTF-8-decoded text. -/

/-- Outcome of `Popen` + `communicate`: exit code and captured output. -/
structure ProcessResult where
  returncode : Int
  stdout : String
  stderr : String
deriving Repr, DecidableEq

/-- External effects observed by one `render` call. -/
structure RenderEnv where
  popen : Except String ProcessResult
  fileContents : Except String (List UInt8)
  fileLingers : Bool

/-- The `RuntimeError` message built by `render` on a non-zero exit
code, embedding the exit code and both captured streams. -/
def renderErrorMessage (proc : ProcessResult) : String :=
  "failed to convert Mermaid diagram; exit code: " ++ toString proc.returncode
    ++ ", output:\n" ++ proc.stdout ++ "\n" ++ proc.stderr

/-- Observable outcome of a `render` call: the scale passed on the
`--scale` command-line argument, the returned bytes or raised
exception, and whether the temporary output file still exists after
`render` finished. -/
structure RenderOutcome where
  usedScale : Yaml
  result : Except String (List UInt8)
  tempFileExists : Bool

/-- Embedding of `render`. Line 130 of mermaid.py computes
`scale = _extract_mermaid_scale(source) or 2` (Python truthiness, so a
falsy extracted value falls back to `2`). The `try` body raises a
`RuntimeError` on a non-zero exit code and otherwise returns the bytes
of the temporary file; the `finally` block removes the temporary file
whenever it still exists, on every exit path. -/
def render (load : YamlLoader) (source : String) (env : RenderEnv) : RenderOutcome :=
  let scale : Yaml :=
    match extract_mermaid_scale load source with
    | none => .num 2
    | some v => if v.truthy then v else .num 2
  let tryResult : Except String (List UInt8) :=
    match env.popen with
    | .error e => .error e
    | .ok proc =>
      if proc.returncode ≠ 0 then .error (renderErrorMessage proc)
      else env.fileContents
  let fileAfter := if env.fileLingers then false else env.fileLingers
  ⟨scale, tryResult, fileAfter⟩

/-- The effective scale of a `render` call on `source`: the value
`render` puts on the converter's command line. -/
def effective_scale (load : YamlLoader) (source : String) : Yaml :=
  match extract_mermaid_scale load source with
  | none => .num 2
  | some v => if v.truthy then v else .num 2

/-! ### External reference resolver

`ExternalReferenceResolver.resolve` (src/md2conf/reference.py) is a
memoized lookup. The document `Scanner` and `Path.exists` are external
collaborators, modelled from the spec: `Scanner().read(path)` yields a
`Document` whose `properties` carry optional `page_id`, `space_key` and
`title`, or raises (`Except.error`). Paths are strings; the mutable
`_cache` dict is threaded explicitly as an association list (most
recent entry first); an `FsTrace` counts the file-system touches
(`exists` queries and `Scanner` reads) a call performed. -/

/-- Model of a file-system path (Python `pathlib.Path`). -/
abbrev FilePath : Type := String

/-- Characters after the last `/` of the list. -/
def afterLastSlash (cs : List Char) : List Char :=
  cs.foldl (fun acc c => if c = '/' then [] else acc ++ [c]) []

/-- The final component of a file path: the text after the last `/`. -/
def pathName (p : FilePath) : String :=
  String.mk (afterLastSlash p.data)

/-- Index of the last `.` in `cs`, if any. -/
def lastDotIdx (cs : List Char) : Option Nat :=
  ((List.range cs.length).filter (fun i => cs[i]? = some '.')).getLast?

/-- Model of `pathlib.Path.stem`: the final component without its last
suffix; a leading or trailing dot does not start a suffix. -/
def pathStem (p : FilePath) : String :=
  let cs := (pathName p).data
  match lastDotIdx cs with
  | some i => if 0 < i ∧ i + 1 < cs.length then String.mk (cs.take i) else pathName p
  | none => pathName p

/-- Optional header properties yielded by the document scanner. -/
structure DocumentProperties where
  page_id : Option String
  space_key : Option String
  title : Option String
deriving Repr, DecidableEq

/-- A parsed document, as returned by `Scanner().read`. -/
structure Document where
  properties : DocumentProperties
deriving Repr, DecidableEq

/-- Modelled from the spec: the external collaborators of `resolve` —
`Path.exists` and the document `Scanner` (whose `read` yields a
`Document` or raises any exception, modelled as `Except.error`). -/
structure FileSystem where
  pathExists : FilePath → Bool
  scannerRead : FilePath → Except String Document

/-- The metadata record constructed on successful resolution. -/
structure ConfluencePageMetadata where
  page_id : String
  space_key : String
  title : String
  synchronized : Bool
deriving Repr, DecidableEq

/-- Python `a or b` on an optional string `a`: `b` when `a` is `None`
or empty (falsy), else the string in `a`. -/
def pyOrStr (a : Option String) (b : String) : String :=
  match a with
  | none => b
  | some s => if s = "" then b else s

/-- Resolver state: the `_cache` dict mapping each queried path to its
memoized outcome (`none` = the negative outcome). -/
structure ExternalReferenceResolver where
  cache : List (FilePath × Option ConfluencePageMetadata)
deriving Repr, DecidableEq

/-- File-system touches performed by one `resolve` call. -/
structure FsTrace where
  existsCalls : Nat
  scanCalls : Nat
deriving Repr, DecidableEq

/-- Embedding of `ExternalReferenceResolver.resolve`: returns the
outcome, the updated resolver state, and the trace of file-system
touches. The five outcomes — cached, missing file, scanner exception,
missing page identifier, resolved — all populate the cache except the
first, which reads it. -/
def ExternalReferenceResolver.resolve (self : ExternalReferenceResolver)
    (fs : FileSystem) (p : FilePath) :
    Option ConfluencePageMetadata × ExternalReferenceResolver × FsTrace :=
  match self.cache.lookup p with
  | some v => (v, self, ⟨0, 0⟩)
  | none =>
    if fs.pathExists p = false then
      (none, ⟨(p, none) :: self.cache⟩, ⟨1, 0⟩)
    else
      match fs.scannerRead p with
      | .error _ => (none, ⟨(p, none) :: self.cache⟩, ⟨1, 1⟩)
      | .ok doc =>
        match doc.properties.page_id with
        | none => (none, ⟨(p, none) :: self.cache⟩, ⟨1, 1⟩)
        | some pid =>
          let md : ConfluencePageMetadata :=
            ⟨pid, pyOrStr doc.properties.space_key "UNKNOWN",
              pyOrStr doc.properties.title (pathStem p), false⟩
          (some md, ⟨(p, some md) :: self.cache⟩, ⟨1, 1⟩)

/-! ### Concrete fixtures

Concrete loader, file-system and render-environment instances used to
evaluate the embedded functions at specific inputs. Each loader models
the behaviour of `yaml.safe_load` on the one raw block its scenario
produces. -/

/-- Loader behaviour for the block of `config: scale 1` front matter. -/
def loadScale1 : YamlLoader := fun s =>
  if s == "\nconfig:\n  scale: 1\n" then
    .ok (.map [("config", .map [("scale", .num 1)])])
  else .error "unmodelled input"

/-- Loader behaviour for the block of `config: scale 0` front matter. -/
def loadScale0 : YamlLoader := fun s =>
  if s == "\nconfig:\n  scale: 0\n" then
    .ok (.map [("config", .map [("scale", .num 0)])])
  else .error "unmodelled input"

/-- Loader behaviour on the block `"\n[\n"`: `yaml.safe_load` raises a
parser error on the unclosed flow sequence. -/
def loadUnclosedFlow : YamlLoader := fun s =>
  if s == "\n[\n" then
    .error "while parsing a flow node: expected the node content, but found end of stream"
  else .ok .null

/-- Loader behaviour on the block `"\nhello\n"`: a successfully parsed
scalar, which is not a mapping. -/
def loadScalar : YamlLoader := fun s =>
  if s == "\nhello\n" then .ok (.str "hello") else .error "unmodelled input"

/-- A file system with one resolvable file, one file whose header has
empty-string values, one file without a page identifier, one unparsable
file, and one nonexistent path. -/
def fsFixture : FileSystem :=
  ⟨fun q => !(q == "/nonexistent/file.md"),
   fun q =>
    if q == "/ext/doc.md" then .ok ⟨⟨some "123456", some "TEST", none⟩⟩
    else if q == "/ext/empty.md" then .ok ⟨⟨some "123", some "", some ""⟩⟩
    else if q == "/ext/noid.md" then .ok ⟨⟨none, none, some "No Id"⟩⟩
    else .error "malformed file"⟩

/-- The file system after every file was deleted or corrupted: used to
show cached results survive on-disk mutation. -/
def fsMutated : FileSystem :=
  ⟨fun _ => false, fun _ => .error "file was deleted"⟩

/-- A render call whose converter exits with code 0 after writing two
bytes to the temporary output file. -/
def envSuccess : RenderEnv := ⟨.ok ⟨0, "", ""⟩, .ok [137, 80], true⟩

/-- A render call whose converter exits with code 3. -/
def envFail : RenderEnv := ⟨.ok ⟨3, "out text", "err text"⟩, .ok [], true⟩

/-- A render call where `Popen` itself raises (converter not found). -/
def envCrash : RenderEnv := ⟨.error "mmdc executable not found", .error "no file", false⟩

/-! ### Validation of the front-matter model

These evaluations pin the embedding of the regular expression
`(?ms)\A---$(.+?)^---$` to the behaviour of Python `re.sub` on
representative inputs (match ends right after the closing `---`; an
opening line that is not exactly `---`, or a missing closing line,
means no match). -/

example : extract_frontmatter_block "---\nkey: value\n---\nbody"
    = (some "\nkey: value\n", "\nbody") := by decide

example : extract_frontmatter_block "no front matter"
    = (none, "no front matter") := by decide

example : extract_frontmatter_block "---\n---" = (some "\n", "") := by decide
example : extract_frontmatter_block "---\n[\n---" = (some "\n[\n", "") := by decide
example : extract_frontmatter_block "---x\n---\n" = (none, "---x\n---\n") := by decide
example : extract_frontmatter_block "---" = (none, "---") := by decide
example : extract_frontmatter_block "---\nabc" = (none, "---\nabc") := by decide
example : extract_frontmatter_block "---\nabc\n---x\n---\nz"
    = (some "\nabc\n---x\n", "\nz") := by decide

example : pathStem "/ext/doc.md" = "doc" := by decide
example : pathStem "/a/.bashrc" = ".bashrc" := by decide
example : pathStem "/a/archive.tar.gz" = "archive.tar" := by decide

/-! ### Helper lemmas about the resolver cache -/

/-- Looking up a key just inserted at the head of the cache finds it. -/
theorem lookup_cons_self (p : FilePath) (v : Option ConfluencePageMetadata)
    (l : List (FilePath × Option ConfluencePageMetadata)) :
    ((p, v) :: l).lookup p = some v := by
  simp [List.lookup]

/-- After any `resolve` call, the queried path is cached and the cached
entry is exactly the returned outcome. -/
theorem resolve_lookup_after (fs : FileSystem) (r : ExternalReferenceResolver)
    (p : FilePath) :
    (r.resolve fs p).2.1.cache.lookup p = some (r.resolve fs p).1 := by
  unfold ExternalReferenceResolver.resolve
  rcases hc : r.cache.lookup p with _ | v
  · by_cases hx : fs.pathExists p = false
    · simp [hx, lookup_cons_self]
    · rcases hr : fs.scannerRead p with e | doc
      · simp [hx, hr, lookup_cons_self]
      · rcases hp : doc.properties.page_id with _ | pid
        · simp [hx, hr, hp, lookup_cons_self]
        · simp [hx, hr, hp, lookup_cons_self]
  · simp [hc]

/-- A path with a cache entry is answered from the cache: same outcome,
unchanged state, no file-system access. -/
theorem resolve_cached_eq (fs : FileSystem) (r : ExternalReferenceResolver)
    (p : FilePath) (v : Option ConfluencePageMetadata)
    (h : r.cache.lookup p = some v) :
    r.resolve fs p = (v, r, ⟨0, 0⟩) := by
  unfold ExternalReferenceResolver.resolve
  rw [h]

/-- The second `resolve` call for a path is answered from the cache,
whatever the file system looks like by then. -/
theorem resolve_second_call (fs fs' : FileSystem) (r : ExternalReferenceResolver)
    (p : FilePath) :
    (r.resolve fs p).2.1.resolve fs' p
      = ((r.resolve fs p).1, (r.resolve fs p).2.1, ⟨0, 0⟩) :=
  resolve_cached_eq fs' _ p _ (resolve_lookup_after fs r p)

/-! ### Claim theorems -/

/-- Claim C1, counterexample: on `"---\nkey: value\n---\nbody"` the
extractor does not return remaining text `"body"` — the `$` before the
body is zero-width, so the newline after the closing `---` is not part
of the deleted span. -/
theorem frontmatter_block_claim_counterexample :
    extract_frontmatter_block "---\nkey: value\n---\nbody"
      ≠ (some "\nkey: value\n", "body") := by decide

/-- Claim C1, amended: on `"---\nkey: value\n---\nbody"` the extractor
returns the raw block `"\nkey: value\n"` with both `---` markers
consumed, and the remaining text `"\nbody"` — the newline following the
closing marker stays in the text. -/
theorem frontmatter_block_roundtrip :
    extract_frontmatter_block "---\nkey: value\n---\nbody"
      = (some "\nkey: value\n", "\nbody") := by decide

/-- Claim C2, counterexample: when `yaml.safe_load` raises on the
malformed raw block `"\n[\n"` (an unclosed flow sequence),
`extract_frontmatter_properties` propagates the exception to its caller
instead of returning normally — the source wraps the load in no
`try`/`except`. -/
theorem frontmatter_properties_claim_counterexample :
    extract_frontmatter_properties loadUnclosedFlow "---\n[\n---"
      = Except.error
          "while parsing a flow node: expected the node content, but found end of stream" :=
  rfl

/-- Claim C2, amended: `extract_frontmatter_properties` returns
normally with absent properties when there is no front-matter block or
when the block parses to a non-mapping value, and returns the parsed
mapping otherwise; but an exception raised by the YAML parser on the
raw block propagates to the caller. -/
theorem frontmatter_properties_total_amended (load : YamlLoader) (text b rest : String) :
    (extract_frontmatter_block text = (none, rest) →
      extract_frontmatter_properties load text = .ok (none, rest))
    ∧ (extract_frontmatter_block text = (some b, rest) →
        (∀ e, load b = .error e →
          extract_frontmatter_properties load text = .error e)
        ∧ (∀ d, load b = .ok d → d.isMap = false →
            extract_frontmatter_properties load text = .ok (none, rest))
        ∧ (∀ kvs, load b = .ok (.map kvs) →
            extract_frontmatter_properties load text = .ok (some kvs, rest))) := by
  constructor
  · intro h
    simp [extract_frontmatter_properties, h]
  · intro h
    refine ⟨?_, ?_, ?_⟩
    · intro e he
      simp [extract_frontmatter_properties, h, he]
    · intro d hd hm
      cases d <;> simp_all [extract_frontmatter_properties, Yaml.isMap]
    · intro kvs hk
      simp [extract_frontmatter_properties, h, hk]

/-- Claim C2 witness: a scalar (non-mapping) block degrades to absent
properties, and a mapping block is returned, both without an exception. -/
theorem frontmatter_properties_total_amended_witness :
    extract_frontmatter_properties loadScalar "---\nhello\n---\nbody" = .ok (none, "\nbody")
    ∧ extract_frontmatter_properties loadScale1 "---\nconfig:\n  scale: 1\n---\nflowchart LR\n"
        = .ok (some [("config", Yaml.map [("scale", Yaml.num 1)])], "\nflowchart LR\n") := by
  constructor
  · exact ((frontmatter_properties_total_amended loadScalar "---\nhello\n---\nbody"
      "\nhello\n" "\nbody").2 (by decide)).2.1 (.str "hello") rfl rfl
  · exact ((frontmatter_properties_total_amended loadScale1
      "---\nconfig:\n  scale: 1\n---\nflowchart LR\n"
      "\nconfig:\n  scale: 1\n" "\nflowchart LR\n").2 (by decide)).2.2 _ rfl

/-- Claim C3: for every path and resolver state, a second `resolve`
call returns exactly the first call's outcome with unchanged state and
zero file-system accesses (no `exists` query, no scanner read), even if
the file system has changed arbitrarily (`fs'`) between the calls. -/
theorem resolve_idempotent_no_fs_access (fs fs' : FileSystem)
    (r : ExternalReferenceResolver) (p : FilePath) :
    (r.resolve fs p).2.1.resolve fs' p
      = ((r.resolve fs p).1, (r.resolve fs p).2.1, ⟨0, 0⟩) :=
  resolve_second_call fs fs' r p

/-- Claim C3 witness: resolving `/ext/doc.md`, deleting every file
(`fsMutated`), and resolving again returns the cached first outcome
with no file-system access. -/
theorem resolve_idempotent_no_fs_access_witness :
    ((⟨[]⟩ : ExternalReferenceResolver).resolve fsFixture "/ext/doc.md").2.1.resolve
        fsMutated "/ext/doc.md"
      = (((⟨[]⟩ : ExternalReferenceResolver).resolve fsFixture "/ext/doc.md").1,
         ((⟨[]⟩ : ExternalReferenceResolver).resolve fsFixture "/ext/doc.md").2.1,
         ⟨0, 0⟩) :=
  resolve_idempotent_no_fs_access fsFixture fsMutated ⟨[]⟩ "/ext/doc.md"

/-- Claim C4: when the scanner raises any exception on an uncached,
existing path, `resolve` returns normally with the absent outcome, and
that negative outcome is recorded in the cache. -/
theorem resolve_total_on_exception (fs : FileSystem) (r : ExternalReferenceResolver)
    (p : FilePath) (e : String)
    (hc : r.cache.lookup p = none) (hx : fs.pathExists p = true)
    (he : fs.scannerRead p = .error e) :
    r.resolve fs p = (none, ⟨(p, none) :: r.cache⟩, ⟨1, 1⟩)
    ∧ (r.resolve fs p).2.1.cache.lookup p = some none := by
  have h1 : r.resolve fs p = (none, ⟨(p, none) :: r.cache⟩, ⟨1, 1⟩) := by
    unfold ExternalReferenceResolver.resolve
    simp [hc, hx, he]
  exact ⟨h1, by rw [h1]; exact lookup_cons_self p none r.cache⟩

/-- Claim C4 witness: `/ext/bad.md` exists but its scanner read raises;
`resolve` returns the absent outcome and caches it. -/
theorem resolve_total_on_exception_witness :
    (⟨[]⟩ : ExternalReferenceResolver).resolve fsFixture "/ext/bad.md"
      = (none, ⟨[("/ext/bad.md", none)]⟩, ⟨1, 1⟩) :=
  (resolve_total_on_exception fsFixture ⟨[]⟩ "/ext/bad.md" "malformed file"
    rfl rfl rfl).1

/-- Claim C5, counterexample: for `/ext/empty.md`, whose parsed header
has page identifier `"123"` but empty-string `space_key` and `title`,
`resolve` returns `space_key = "UNKNOWN"` and `title = "empty"` (the
stem), not the header values — `or`-defaulting tests truthiness, and
empty strings are falsy. -/
theorem resolve_empty_header_counterexample :
    ((⟨[]⟩ : ExternalReferenceResolver).resolve fsFixture "/ext/empty.md").1
        = some ⟨"123", "UNKNOWN", "empty", false⟩
    ∧ ((⟨[]⟩ : ExternalReferenceResolver).resolve fsFixture "/ext/empty.md").1
        ≠ some ⟨"123", "", "", false⟩ := by
  constructor
  · decide
  · decide

/-- Claim C5, amended: for every uncached, existing file whose parsed
header contains a page identifier, `resolve` returns metadata with
`synchronized = false`, `page_id` equal to the header identifier,
`space_key` equal to the header value when present and non-empty and
`"UNKNOWN"` when absent or empty, and `title` equal to the header title
when present and non-empty, else the file's base name (stem). -/
theorem resolve_resolved_metadata (fs : FileSystem) (r : ExternalReferenceResolver)
    (p : FilePath) (doc : Document) (pid : String)
    (hc : r.cache.lookup p = none) (hx : fs.pathExists p = true)
    (hr : fs.scannerRead p = .ok doc) (hp : doc.properties.page_id = some pid) :
    ∃ md, (r.resolve fs p).1 = some md
      ∧ md.synchronized = false
      ∧ md.page_id = pid
      ∧ (doc.properties.space_key = none → md.space_key = "UNKNOWN")
      ∧ (doc.properties.space_key = some "" → md.space_key = "UNKNOWN")
      ∧ (∀ sk, doc.properties.space_key = some sk → sk ≠ "" → md.space_key = sk)
      ∧ (doc.properties.title = none → md.title = pathStem p)
      ∧ (doc.properties.title = some "" → md.title = pathStem p)
      ∧ (∀ t, doc.properties.title = some t → t ≠ "" → md.title = t) := by
  refine ⟨⟨pid, pyOrStr doc.properties.space_key "UNKNOWN",
      pyOrStr doc.properties.title (pathStem p), false⟩,
    ?_, rfl, rfl, ?_, ?_, ?_, ?_, ?_, ?_⟩
  · unfold ExternalReferenceResolver.resolve
    simp [hc, hx, hr, hp]
  · intro h; simp [pyOrStr, h]
  · intro h; simp [pyOrStr, h]
  · intro sk h hne; simp [pyOrStr, h, hne]
  · intro h; simp [pyOrStr, h]
  · intro h; simp [pyOrStr, h]
  · intro t h hne; simp [pyOrStr, h, hne]

/-- Claim C5 witness: `/ext/doc.md` has header identifier `"123456"`,
space key `"TEST"` and no title; `resolve` yields `synchronized =
false`, the header identifier and space key, and the stem `"doc"` as
title. -/
theorem resolve_resolved_metadata_witness :
    ∃ md, ((⟨[]⟩ : ExternalReferenceResolver).resolve fsFixture "/ext/doc.md").1 = some md
      ∧ md.synchronized = false ∧ md.page_id = "123456"
      ∧ md.space_key = "TEST" ∧ md.title = "doc" := by
  obtain ⟨md, h1, h2, h3, _, _, hsk, ht, _, _⟩ :=
    resolve_resolved_metadata fsFixture ⟨[]⟩ "/ext/doc.md"
      ⟨⟨some "123456", some "TEST", none⟩⟩ "123456" rfl rfl rfl rfl
  exact ⟨md, h1, h2, h3, hsk "TEST" rfl (by decide), (ht rfl).trans (by decide)⟩

/-- Claim C6: an uncached nonexistent path yields the absent outcome
with no scanner read; an uncached existing file without a page
identifier also yields the absent outcome; both record the negative
outcome in the cache, so a repeat call for the path performs zero
file-system accesses. -/
theorem resolve_negative_outcomes_cached (fs fs' : FileSystem)
    (r : ExternalReferenceResolver) (p : FilePath) (doc : Document) :
    (r.cache.lookup p = none → fs.pathExists p = false →
      r.resolve fs p = (none, ⟨(p, none) :: r.cache⟩, ⟨1, 0⟩))
    ∧ (r.cache.lookup p = none → fs.pathExists p = true →
        fs.scannerRead p = .ok doc → doc.properties.page_id = none →
        r.resolve fs p = (none, ⟨(p, none) :: r.cache⟩, ⟨1, 1⟩))
    ∧ ((r.resolve fs p).2.1.resolve fs' p).2.2 = ⟨0, 0⟩ := by
  refine ⟨?_, ?_, ?_⟩
  · intro hc hx
    unfold ExternalReferenceResolver.resolve
    simp [hc, hx]
  · intro hc hx hr hp
    unfold ExternalReferenceResolver.resolve
    simp [hc, hx, hr, hp]
  · rw [resolve_second_call]

/-- Claim C6 witness: the nonexistent path is answered absent with no
scanner read, the identifier-less file is answered absent, and the
repeated call for the nonexistent path touches the file system zero
times. -/
theorem resolve_negative_outcomes_cached_witness :
    (⟨[]⟩ : ExternalReferenceResolver).resolve fsFixture "/nonexistent/file.md"
        = (none, ⟨[("/nonexistent/file.md", none)]⟩, ⟨1, 0⟩)
    ∧ (⟨[]⟩ : ExternalReferenceResolver).resolve fsFixture "/ext/noid.md"
        = (none, ⟨[("/ext/noid.md", none)]⟩, ⟨1, 1⟩)
    ∧ (((⟨[]⟩ : ExternalReferenceResolver).resolve fsFixture
          "/nonexistent/file.md").2.1.resolve fsFixture "/nonexistent/file.md").2.2
        = ⟨0, 0⟩ := by
  refine ⟨?_, ?_, ?_⟩
  · exact (resolve_negative_outcomes_cached fsFixture fsFixture ⟨[]⟩
      "/nonexistent/file.md" ⟨⟨none, none, none⟩⟩).1 rfl rfl
  · exact (resolve_negative_outcomes_cached fsFixture fsFixture ⟨[]⟩
      "/ext/noid.md" ⟨⟨none, none, some "No Id"⟩⟩).2.1 rfl rfl rfl rfl
  · exact (resolve_negative_outcomes_cached fsFixture fsFixture ⟨[]⟩
      "/nonexistent/file.md" ⟨⟨none, none, none⟩⟩).2.2

/-- Claim C7: a diagram source with no front matter renders with scale
exactly `2`; any scale-extraction failure also yields scale `2` and a
scanner exception is absorbed to "no scale found" rather than
propagated; and front matter whose `config` maps `scale` to `1` renders
with scale exactly `1`. -/
theorem mermaid_effective_scale_spec (load : YamlLoader) (source b rest : String) :
    ((extract_frontmatter_block source).1 = none →
      ∀ env, (render load source env).usedScale = Yaml.num 2)
    ∧ (extract_mermaid_scale load source = none →
      ∀ env, (render load source env).usedScale = Yaml.num 2)
    ∧ (∀ e, MermaidScanner.read load source = .error e →
        extract_mermaid_scale load source = none)
    ∧ (extract_frontmatter_block source = (some b, rest) →
        load b = .ok (Yaml.map [("config", Yaml.map [("scale", Yaml.num 1)])]) →
        ∀ env, (render load source env).usedScale = Yaml.num 1) := by
  refine ⟨?_, ?_, ?_, ?_⟩
  · intro h env
    rcases hE : extract_frontmatter_block source with ⟨o, r2⟩
    rw [hE] at h
    simp only at h
    subst h
    simp [render, extract_mermaid_scale, MermaidScanner.read,
      extract_frontmatter_properties, hE]
  · intro h env
    simp [render, h]
  · intro e h
    simp [extract_mermaid_scale, h]
  · intro h1 h2 env
    have hprops : extract_frontmatter_properties load source
        = .ok (some [("config", Yaml.map [("scale", Yaml.num 1)])], rest) := by
      simp [extract_frontmatter_properties, h1, h2]
    have hread : MermaidScanner.read load source
        = .ok ⟨none, some (Yaml.map [("scale", Yaml.num 1)])⟩ := by
      simp [MermaidScanner.read, hprops, List.lookup]
    have hscale : extract_mermaid_scale load source = some (Yaml.num 1) := by
      simp [extract_mermaid_scale, hread, Yaml.truthy, List.lookup]
    simp [render, hscale, Yaml.truthy]

/-- Claim C7 witness: the fixture source with `config: scale 1` front
matter renders with scale `1`; a bare flowchart with no front matter
renders with scale `2`. -/
theorem mermaid_effective_scale_spec_witness :
    (render loadScale1 "---\nconfig:\n  scale: 1\n---\nflowchart LR\n"
        envSuccess).usedScale = Yaml.num 1
    ∧ (render loadScale1 "flowchart LR\n" envSuccess).usedScale = Yaml.num 2 := by
  constructor
  · exact (mermaid_effective_scale_spec loadScale1
      "---\nconfig:\n  scale: 1\n---\nflowchart LR\n" "\nconfig:\n  scale: 1\n"
      "\nflowchart LR\n").2.2.2 (by decide) rfl envSuccess
  · exact (mermaid_effective_scale_spec loadScale1 "flowchart LR\n" "" "").1
      (by decide) envSuccess

/-- Claim C8: when the converter process exits with a non-zero code,
`render` fails with the `RuntimeError` message embedding the exit code
and the captured standard-output and standard-error text; when it exits
with code zero, `render` returns the contents of the temporary output
file. -/
theorem render_exit_code_spec (load : YamlLoader) (source : String)
    (env : RenderEnv) (proc : ProcessResult) (hp : env.popen = .ok proc) :
    (proc.returncode ≠ 0 →
      (render load source env).result = .error (renderErrorMessage proc))
    ∧ (proc.returncode = 0 →
      (render load source env).result = env.fileContents) := by
  constructor
  · intro h
    simp [render, hp, h]
  · intro h
    simp [render, hp, h]

/-- Claim C8 witness: exit code `3` surfaces the formatted message with
code and both streams; exit code `0` returns the output file's bytes. -/
theorem render_exit_code_spec_witness :
    (render loadScale1 "flowchart LR\n" envFail).result
        = .error "failed to convert Mermaid diagram; exit code: 3, output:\nout text\nerr text"
    ∧ (render loadScale1 "flowchart LR\n" envSuccess).result = .ok [137, 80] := by
  constructor
  · have h := (render_exit_code_spec loadScale1 "flowchart LR\n" envFail
      ⟨3, "out text", "err text"⟩ rfl).1 (by decide)
    rw [h]
    rfl
  · have h := (render_exit_code_spec loadScale1 "flowchart LR\n" envSuccess
      ⟨0, "", ""⟩ rfl).2 rfl
    rw [h]
    rfl

/-- Claim C9: for every render call and every exit path — converter
success, converter failure, or an exception raised before or after the
process ran — the temporary output file no longer exists once `render`
has finished: the `finally` block removes it whenever it still exists. -/
theorem render_temp_file_cleanup (load : YamlLoader) (source : String)
    (env : RenderEnv) :
    (render load source env).tempFileExists = false := by
  simp only [render]
  cases env.fileLingers <;> rfl

/-- Claim C9 witness: the temporary file is gone after a successful
render, after a converter failure, and after a `Popen` exception. -/
theorem render_temp_file_cleanup_witness :
    (render loadScale1 "flowchart LR\n" envSuccess).tempFileExists = false
    ∧ (render loadScale1 "flowchart LR\n" envFail).tempFileExists = false
    ∧ (render loadScale1 "flowchart LR\n" envCrash).tempFileExists = false :=
  ⟨render_temp_file_cleanup loadScale1 "flowchart LR\n" envSuccess,
   render_temp_file_cleanup loadScale1 "flowchart LR\n" envFail,
   render_temp_file_cleanup loadScale1 "flowchart LR\n" envCrash⟩

/-- Claim C10: front matter whose `config` maps `scale` to the falsy
value `0` makes extraction return `0`, yet `render` uses the default
scale `2`: line 130 combines the extracted scale with the default by
Python truthiness (`or`), not by a presence test. -/
theorem render_falsy_scale_default (load : YamlLoader) (source b rest : String)
    (h1 : extract_frontmatter_block source = (some b, rest))
    (h2 : load b = .ok (Yaml.map [("config", Yaml.map [("scale", Yaml.num 0)])])) :
    extract_mermaid_scale load source = some (Yaml.num 0)
    ∧ ∀ env, (render load source env).usedScale = Yaml.num 2 := by
  have hprops : extract_frontmatter_properties load source
      = .ok (some [("config", Yaml.map [("scale", Yaml.num 0)])], rest) := by
    simp [extract_frontmatter_properties, h1, h2]
  have hread : MermaidScanner.read load source
      = .ok ⟨none, some (Yaml.map [("scale", Yaml.num 0)])⟩ := by
    simp [MermaidScanner.read, hprops, List.lookup]
  have hscale : extract_mermaid_scale load source = some (Yaml.num 0) := by
    simp [extract_mermaid_scale, hread, Yaml.truthy, List.lookup]
  refine ⟨hscale, ?_⟩
  intro env
  simp [render, hscale, Yaml.truthy]

/-- Claim C10 witness: the fixture source with `config: scale 0` front
matter extracts scale `0` but renders with the default scale `2`. -/
theorem render_falsy_scale_default_witness :
    extract_mermaid_scale loadScale0 "---\nconfig:\n  scale: 0\n---\nflowchart LR\n"
        = some (Yaml.num 0)
    ∧ (render loadScale0 "---\nconfig:\n  scale: 0\n---\nflowchart LR\n"
        envSuccess).usedScale = Yaml.num 2 := by
  have h := render_falsy_scale_default loadScale0
    "---\nconfig:\n  scale: 0\n---\nflowchart LR\n" "\nconfig:\n  scale: 0\n"
    "\nflowchart LR\n" (by decide) rfl
  exact ⟨h.1, h.2 envSuccess⟩

end Md2conf
